import Mathlib

/-!
# Arena MPI training-job read layer

A shallow embedding of `pkg/training/trainer_mpi.go`: the `MPIJob` view over an
MPI custom resource, its launcher batch job and its pods, and the
`MPIJobTrainer` lookups that build it.

Conventions of the embedding

* Go strings are Lean `String`s; `len(s)` is the UTF-8 byte size.
* A Go `error` that the code only inspects through `err != nil`, `err.Error()`
  or `%v` is an `Option String` holding its message (`none` is `nil`).
* Pointers that the code dereferences without a nil check (`mj.mpijob`,
  `mj.chiefjob`, `mj.chiefPod`) are values; `*metav1.Time` fields that the code
  does compare with `nil` are `Option`s.
* `int64` values are `Int`s, reduced with `wrap64` after every addition.
* Calls into the cluster (`dashboard`, the list and get requests) are functions
  that the operations take as arguments; every operation that performs such
  calls returns, besides its Go results, the sequence of calls it issued.
-/

set_option autoImplicit false

/-! ## Kubernetes objects (the fields the trainer reads) -/

/-- An instant: nanoseconds elapsed since Go's zero `time.Time`
(January 1, year 1, 00:00:00 UTC), without a monotonic clock reading. -/
structure Time where
  nanos : Int
deriving DecidableEq, Repr

/-- Go `Time.IsZero`: the instant is the zero time. -/
def Time.IsZero (t : Time) : Bool := t.nanos == 0

/-- Largest `time.Duration` (`1<<63 - 1` nanoseconds). -/
def maxDuration : Int := 2 ^ 63 - 1

/-- Smallest `time.Duration` (`-1 << 63` nanoseconds). -/
def minDuration : Int := -(2 ^ 63)

/-- Go `Time.Sub` on wall-clock instants: the difference `t - u` in nanoseconds,
replaced by the smallest or largest `Duration` when it does not fit an `int64`. -/
def Time.Sub (t u : Time) : Int :=
  let d := t.nanos - u.nanos
  if d < minDuration then minDuration
  else if maxDuration < d then maxDuration
  else d

/-- Go `len` of a string: its number of bytes. -/
def len (s : String) : Nat := s.utf8ByteSize

/-- Two's-complement reduction of an integer to the `int64` range. -/
def wrap64 (x : Int) : Int := (x + 2 ^ 63) % 2 ^ 64 - 2 ^ 63

/-- Go map index `m[k]` on a `map[string]string`: the value stored under `k`,
or the empty string when the key is absent (also for a nil map, which is the
empty list here). -/
def mapIndex (m : List (String × String)) (k : String) : String :=
  (m.lookup k).getD ""

namespace v1

/-- A container of a pod spec. -/
structure Container where
  Name : String
deriving DecidableEq, Repr

/-- The part of `v1.PodSpec` read by the trainer. -/
structure PodSpec where
  Containers : List Container
deriving DecidableEq, Repr

/-- The part of `v1.PodStatus` read by the trainer. -/
structure PodStatus where
  Phase : String
  HostIP : String
deriving DecidableEq, Repr

/-- A pod condition, of which only the transition time is read. -/
structure PodCondition where
  LastTransitionTime : Time
deriving DecidableEq, Repr

/-- The part of `v1.Pod` read by the trainer. -/
structure Pod where
  Name : String
  Namespace : String
  Labels : List (String × String)
  Spec : PodSpec
  Status : PodStatus
deriving DecidableEq, Repr

/-- Modelled from the spec: the pod phase constant `PodPending` of the core
Kubernetes API (`k8s.io/api/core/v1`). No proof below depends on its value. -/
def PodPending : String := "Pending"

end v1

namespace batchv1

/-- The part of `batchv1.JobStatus` read by the trainer. -/
structure JobStatus where
  CompletionTime : Option Time
deriving DecidableEq, Repr

/-- The part of `batchv1.Job` read by the trainer. -/
structure Job where
  Name : String
  Namespace : String
  UID : String
  Status : JobStatus
deriving DecidableEq, Repr

end batchv1

namespace v1alpha1

/-- Modelled from the spec: the launcher status constant `LauncherSucceeded`, declared in
the MPI operator API package (`apis/kubeflow/v1alpha1`). No proof below depends
on its value. -/
def LauncherSucceeded : String := "Succeeded"

/-- Modelled from the spec: the launcher status constant `LauncherFailed`, declared in
the MPI operator API package (`apis/kubeflow/v1alpha1`). No proof below depends
on its value. -/
def LauncherFailed : String := "Failed"

/-- The part of `v1alpha1.MPIJobStatus` read by the trainer. -/
structure MPIJobStatus where
  LauncherStatus : String
deriving DecidableEq, Repr

/-- The part of the `v1alpha1.MPIJob` custom resource read by the trainer. -/
structure MPIJob where
  Name : String
  Namespace : String
  UID : String
  Labels : List (String × String)
  CreationTimestamp : Time
  PriorityClassName : String
  Status : MPIJobStatus
deriving DecidableEq, Repr

end v1alpha1

/-! ## Calls into the cluster and Go errors -/

/-- A request issued to the cluster or to the cache, with its arguments. -/
inductive Call where
  | dashboard (ns name : String)
  | cacheGet (ns name : String)
  | mpijobsGet (ns name : String)
  | listJobPods (ns : String) (labels : List (String × String))
  | listJobBatchJobs (ns : String) (labels : List (String × String))
  | listStatefulSets (ns : String) (labels : List (String × String))
deriving DecidableEq, Repr

/-- A Go `error` value as returned by the trainer: the sentinel
`types.ErrTrainingJobNotFound`, or another error value carrying a message
(built by `fmt.Errorf`, or handed through from a list request). -/
inductive GoError where
  | ErrTrainingJobNotFound
  | errorString (msg : String)
deriving DecidableEq, Repr

/-! ## The `MPIJob` view -/

/-- Modelled from the spec: the kind of an object associated with a job
(StatefulSet, Job, Pod), declared next to `BasicJobInfo` in the training package. -/
inductive ResourceType where
  | ResourceTypeStatefulSet
  | ResourceTypeJob
  | ResourceTypePod
deriving DecidableEq, Repr

/-- A (name, UID, kind) entry for an object associated with a job. -/
structure Resource where
  Name : String
  Uid : String
  ResourceType : ResourceType
deriving DecidableEq, Repr

/-- Embedded `BasicJobInfo`. -/
structure BasicJobInfo where
  resources : List Resource
  name : String
deriving DecidableEq, Repr

/-- MPI job information (`type MPIJob struct`). -/
structure MPIJob where
  BasicJobInfo : BasicJobInfo
  mpijob : v1alpha1.MPIJob
  chiefjob : batchv1.Job
  pods : List v1.Pod
  chiefPod : v1.Pod
  requestedGPU : Int
  allocatedGPU : Int
  trainerType : String
deriving DecidableEq, Repr

namespace MPIJob

/-- `isSucceeded`: the launcher status is `LauncherSucceeded`. -/
def isSucceeded (mj : MPIJob) : Bool :=
  mj.mpijob.Status.LauncherStatus == v1alpha1.LauncherSucceeded

/-- `isFailed`: the launcher status is `LauncherFailed`. -/
def isFailed (mj : MPIJob) : Bool :=
  mj.mpijob.Status.LauncherStatus == v1alpha1.LauncherFailed

/-- `isPending`: the chief job or the chief pod is not ready. -/
def isPending (mj : MPIJob) : Bool :=
  if len mj.chiefjob.Name == 0 then
    true
  else if len mj.chiefPod.Name == 0 || mj.chiefPod.Status.Phase == v1.PodPending then
    true
  else
    false

/-- `GetStatus`: the status of the job. -/
def GetStatus (mj : MPIJob) : String :=
  if mj.mpijob.Name == "" then
    "UNKNOWN"
  else if mj.isSucceeded then
    "SUCCEEDED"
  else if mj.isFailed then
    "FAILED"
  else if mj.isPending then
    "PENDING"
  else
    "RUNNING"

/-- `HostIPOfChief`: the host IP of the chief pod. -/
def HostIPOfChief (mj : MPIJob) : String :=
  if mj.GetStatus == "RUNNING" then
    mj.chiefPod.Status.HostIP
  else
    "N/A"

/-- `Duration`: the training duration of the job. `getPodLatestCondition` is the
package helper of that name and `now` the reading of `metav1.Now()`. -/
def Duration (getPodLatestCondition : v1.Pod → v1.PodCondition) (now : Time)
    (mj : MPIJob) : Int :=
  let mpijob := mj.mpijob
  if mpijob.CreationTimestamp.IsZero then
    0
  else
    match (len mj.chiefjob.Name != 0), mj.chiefjob.Status.CompletionTime with
    | true, some completionTime => completionTime.Sub mpijob.CreationTimestamp
    | _, _ =>
      if mj.isFailed then
        let cond := getPodLatestCondition mj.chiefPod
        if !cond.LastTransitionTime.IsZero then
          cond.LastTransitionTime.Sub mpijob.CreationTimestamp
        else
          now.Sub mpijob.CreationTimestamp
      else
        now.Sub mpijob.CreationTimestamp

/-- The log-viewer URL built by `fmt.Sprintf` in `GetJobDashboards`. -/
def dashboardLogURL (dashboardURL : String) (chiefPod : v1.Pod) (container : v1.Container) :
    String :=
  dashboardURL ++ "/#!/log/" ++ chiefPod.Namespace ++ "/" ++ chiefPod.Name ++ "/" ++
    container.Name ++ "?namespace=" ++ chiefPod.Namespace ++ "\n"

/-- `GetJobDashboards`: the dashboard URL of the job. `dashboard ns name` is the
package helper `dashboard(client, ns, name)`, returning a URL and an error. The
result is the Go pair (urls, err) together with the lookups issued, in order. -/
def GetJobDashboards (dashboard : String → String → String × Option String) (mj : MPIJob)
    (ns arenaNamespace : String) : (List String × Option String) × List Call :=
  let urls : List String := []
  let r1 := dashboard ns "kubernetes-dashboard"
  let calls := [Call.dashboard ns "kubernetes-dashboard"]
  let (r2, calls) :=
    if r1.2.isSome then
      (dashboard arenaNamespace "kubernetes-dashboard",
        calls ++ [Call.dashboard arenaNamespace "kubernetes-dashboard"])
    else (r1, calls)
  let (r3, calls) :=
    if r2.2.isSome then
      (dashboard "kube-system" "kubernetes-dashboard",
        calls ++ [Call.dashboard "kube-system" "kubernetes-dashboard"])
    else (r2, calls)
  let dashboardURL := r3.1
  if dashboardURL == "" then
    ((urls, some "No LOGVIEWER Installed."), calls)
  else
    match mj.chiefPod.Spec.Containers with
    | [] => ((urls, some "mpi launcher is not ready!"), calls)
    | container :: _ => ((urls ++ [dashboardLogURL dashboardURL mj.chiefPod container], none), calls)

/-- `RequestedGPU`: the requested GPU count of the job. The method accumulates
into the `requestedGPU` field, so the result is the returned count together with
the job after the call. `getRequestGPUsOfJobFromPodAnnotation` and `gpuInPod` are
the package helpers of those names, both returning an `int64`. -/
def RequestedGPU ( getRequestGPUsOfJobFromPodAnnotation : List v1.Pod → Int)
    (gpuInPod : v1.Pod → Int) (mj : MPIJob) : Int × MPIJob :=
  if mj.requestedGPU > 0 then
    (mj.requestedGPU, mj)
  else
    let requestGPUs := getRequestGPUsOfJobFromPodAnnotation mj.pods
    if requestGPUs > 0 then
      (requestGPUs, mj)
    else
      let mj1 := mj.pods.foldl
        (fun (m : MPIJob) pod => { m with requestedGPU := wrap64 (m.requestedGPU + gpuInPod pod) })
        mj
      (mj1.requestedGPU, mj1)

end MPIJob

/-! ## The trainer -/

namespace appsv1

/-- The part of `appsv1.StatefulSet` read by the trainer. -/
structure StatefulSet where
  Name : String
  UID : String
deriving DecidableEq, Repr

end appsv1

/-- The zero value of `batchv1.Job`. -/
def batchv1.Job.zero : batchv1.Job :=
  { Name := "", Namespace := "", UID := "", Status := { CompletionTime := none } }

/-- What the package list helpers obtain through `*kubernetes.Clientset`: each
returns the items of the list it received and an error. -/
structure kubernetes.Clientset where
  listJobPods : String → List (String × String) → List v1.Pod × Option String
  listJobBatchJobs : String → List (String × String) → List batchv1.Job × Option String
  listStatefulSets : String → List (String × String) → List appsv1.StatefulSet × Option String

/-- The MPI operator client: `KubeflowV1alpha1().MPIJobs(namespace).Get(name, ...)`
returns the custom resource, or an error given by its message. -/
structure versioned.Clientset where
  Get : String → String → Except String v1alpha1.MPIJob

/-- Process-wide state and package helpers that `trainer_mpi.go` calls and that are
declared in other files: the daemon-mode flag of the arena configuration, the
cache client's `Get`, `getPodsOfTrainingJob`, `podResources` and `utils.IsMPIPod`. -/
structure Package where
  IsDaemonMode : Bool
  cacheGet : String → String → Except String v1alpha1.MPIJob
  getPodsOfTrainingJob : String → String → List v1.Pod →
    (String → String → v1.Pod → Bool) → (v1.Pod → Bool) → List v1.Pod × v1.Pod
  podResources : List v1.Pod → List Resource
  IsMPIPod : String → String → v1.Pod → Bool

/-- MPI job trainer (`type MPIJobTrainer struct`). -/
structure MPIJobTrainer where
  client : kubernetes.Clientset
  mpijobClient : versioned.Clientset
  trainerType : String
  enabled : Bool

/-- Go `strings.HasPrefix` on character sequences. -/
def hasPrefixChars : List Char → List Char → Bool
  | _, [] => true
  | [], _ :: _ => false
  | c :: cs, d :: ds => c == d && hasPrefixChars cs ds

/-- Go `strings.Contains` on character sequences: `substr` occurs at some position. -/
def containsChars : List Char → List Char → Bool
  | [], substr => substr.isEmpty
  | c :: cs, substr => hasPrefixChars (c :: cs) substr || containsChars cs substr

/-- Go `strings.Contains(s, substr)`. -/
def strings.Contains (s substr : String) : Bool :=
  containsChars s.data substr.data

namespace MPIJobTrainer

/-- `Type`: the trainer type (primed, as `Type` is reserved). -/
def Type' (tt : MPIJobTrainer) : String := tt.trainerType

/-- `isChiefPod`: the pod carries the label `mpi_role_type=launcher`. -/
def isChiefPod (_tt : MPIJobTrainer) (item : v1.Pod) : Bool :=
  if mapIndex item.Labels "mpi_role_type" != "launcher" then
    false
  else
    true

/-- `isMPIPod`: delegates to `utils.IsMPIPod`. -/
def isMPIPod (pkg : Package) (_tt : MPIJobTrainer) (name ns : String) (pod : v1.Pod) : Bool :=
  pkg.IsMPIPod name ns pod

/-- `getChiefJob`: the first batch job labelled `mpi_job_name=<name>`, else the
first labelled `mpi_job_name=<name>-mpijob`, else the zero job. Returns the job
and the list requests issued. -/
def getChiefJob (tt : MPIJobTrainer) (name ns : String) : batchv1.Job × List Call :=
  let labels := [("mpi_job_name", name)]
  let jobList := tt.client.listJobBatchJobs ns labels
  let calls := [Call.listJobBatchJobs ns labels]
  match jobList.1 with
  | job :: _ => (job, calls)
  | [] =>
    let labels := [("mpi_job_name", name ++ "-mpijob")]
    let jobList := tt.client.listJobBatchJobs ns labels
    let calls := calls ++ [Call.listJobBatchJobs ns labels]
    match jobList.1 with
    | job :: _ => (job, calls)
    | [] => (batchv1.Job.zero, calls)

/-- `resources`: the statefulsets, batch jobs and pods associated with the job.
Returns the Go pair (resources, err) and the list requests issued. -/
def resources (pkg : Package) (tt : MPIJobTrainer) (name ns : String) (pods : List v1.Pod) :
    (List Resource × Option String) × List Call :=
  let resources : List Resource := []
  let labels := [("mpi_job_name", name)]
  let stsList := tt.client.listStatefulSets ns labels
  let calls := [Call.listStatefulSets ns labels]
  match stsList.2 with
  | some err => ((resources, some err), calls)
  | none =>
    let resources := resources ++ stsList.1.map
      (fun sts => { Name := sts.Name, Uid := sts.UID,
                    ResourceType := ResourceType.ResourceTypeStatefulSet })
    let jobList := tt.client.listJobBatchJobs ns labels
    let calls := calls ++ [Call.listJobBatchJobs ns labels]
    match jobList.2 with
    | some err => ((resources, some err), calls)
    | none =>
      let resources := resources ++ jobList.1.map
        (fun job => { Name := job.Name, Uid := job.UID,
                      ResourceType := ResourceType.ResourceTypeJob })
      let resources := resources ++ pkg.podResources pods
      ((resources, none), calls)

/-- `getPodsOfMPIJob`: the pods and the chief pod of the job among `podList`. -/
def getPodsOfMPIJob (pkg : Package) (tt : MPIJobTrainer) (mpijob : v1alpha1.MPIJob)
    (podList : List v1.Pod) : List v1.Pod × v1.Pod :=
  pkg.getPodsOfTrainingJob mpijob.Name mpijob.Namespace podList (tt.isMPIPod pkg)
    (fun pod => tt.isChiefPod pod)

/-- The part of `GetTrainingJob` after the custom resource was fetched: steps 1 to 3. -/
def buildTrainingJob (pkg : Package) (tt : MPIJobTrainer) (name ns : String)
    (mpijob : v1alpha1.MPIJob) (calls : List Call) :
    (Option MPIJob × Option GoError) × List Call :=
  let (job, jobCalls) := tt.getChiefJob name ns
  let calls := calls ++ jobCalls
  let labels := [("release", name), ("app", tt.Type')]
  let podList := tt.client.listJobPods ns labels
  let calls := calls ++ [Call.listJobPods ns labels]
  match podList.2 with
  | some err => ((none, some (GoError.errorString err)), calls)
  | none =>
    let allPods := podList.1
    let (pods, chiefPod) := getPodsOfMPIJob pkg tt mpijob allPods
    let (res, resCalls) := tt.resources pkg name ns pods
    let calls := calls ++ resCalls
    match res.2 with
    | some err => ((none, some (GoError.errorString err)), calls)
    | none =>
      ((some { BasicJobInfo := { resources := res.1, name := name },
               mpijob := mpijob, chiefjob := job, pods := pods, chiefPod := chiefPod,
               requestedGPU := 0, allocatedGPU := 0, trainerType := tt.Type' }, none), calls)

/-- `GetTrainingJob`: looks the MPI job up, in the cache in daemon mode and at the
API server otherwise, and builds its view. Returns the Go pair (job, err), where
`none` is `nil`, and the requests issued, in order. -/
def GetTrainingJob (pkg : Package) (tt : MPIJobTrainer) (name ns : String) :
    (Option MPIJob × Option GoError) × List Call :=
  if pkg.IsDaemonMode then
    let calls := [Call.cacheGet ns name]
    match pkg.cacheGet ns name with
    | .error err =>
      if strings.Contains err ("MPIJob.kubeflow.org \"" ++ name ++ "\" not found") then
        ((none, some GoError.ErrTrainingJobNotFound), calls)
      else
        ((none, some (GoError.errorString
          ("failed to find mpijob " ++ name ++ " from cache,reason: " ++ err))), calls)
    | .ok mpijob => tt.buildTrainingJob pkg name ns mpijob calls
  else
    let calls := [Call.mpijobsGet ns name]
    match tt.mpijobClient.Get ns name with
    | .error err =>
      if strings.Contains err ("mpijobs.kubeflow.org \"" ++ name ++ "\" not found") then
        ((none, some GoError.ErrTrainingJobNotFound), calls)
      else
        ((none, some (GoError.errorString
          ("failed to find job " ++ name ++ " from api server,reason: " ++ err))), calls)
    | .ok mpijob => tt.buildTrainingJob pkg name ns mpijob calls

/-- `IsSupported`: the trainer is enabled and the job can be fetched. -/
def IsSupported (pkg : Package) (tt : MPIJobTrainer) (name ns : String) : Bool :=
  if !tt.enabled then
    false
  else
    match (tt.GetTrainingJob pkg name ns).1.2 with
    | some _ => false
    | none => true

end MPIJobTrainer

/-! ## Example objects -/

/-- A job view whose custom resource has no name. -/
def exUnnamedJob : MPIJob :=
  { BasicJobInfo := { resources := [], name := "" },
    mpijob := { Name := "", Namespace := "", UID := "", Labels := [],
                CreationTimestamp := { nanos := 0 }, PriorityClassName := "",
                Status := { LauncherStatus := "" } },
    chiefjob := batchv1.Job.zero, pods := [],
    chiefPod := { Name := "", Namespace := "", Labels := [],
                  Spec := { Containers := [] }, Status := { Phase := "", HostIP := "" } },
    requestedGPU := 0, allocatedGPU := 0, trainerType := "mpijob" }

/-- A launcher pod in phase Running on host 10.0.0.7. -/
def exLauncherPod : v1.Pod :=
  { Name := "train-launcher-x2k", Namespace := "default",
    Labels := [("release", "train"), ("mpi_role_type", "launcher")],
    Spec := { Containers := [{ Name := "mpi" }] },
    Status := { Phase := "Running", HostIP := "10.0.0.7" } }

/-- The empty pod `&v1.Pod{}`. -/
def exEmptyPod : v1.Pod :=
  { Name := "", Namespace := "", Labels := [],
    Spec := { Containers := [] }, Status := { Phase := "", HostIP := "" } }

/-- A launcher batch job that has not completed. -/
def exChiefJob : batchv1.Job :=
  { Name := "train-launcher", Namespace := "default", UID := "j-1",
    Status := { CompletionTime := none } }

/-- The empty batch job (no launcher job was listed). -/
def exEmptyJob : batchv1.Job :=
  { Name := "", Namespace := "", UID := "", Status := { CompletionTime := none } }

/-- An MPI custom resource named `train` with the given launcher status. -/
def exResource (launcherStatus : String) : v1alpha1.MPIJob :=
  { Name := "train", Namespace := "default", UID := "m-1", Labels := [("release", "train")],
    CreationTimestamp := { nanos := 63000000000000000000 }, PriorityClassName := "",
    Status := { LauncherStatus := launcherStatus } }

/-- A job view over `exResource` with the given launcher status, chief job and chief pod. -/
def exJob (launcherStatus : String) (chiefjob : batchv1.Job) (chiefPod : v1.Pod) : MPIJob :=
  { BasicJobInfo := { resources := [], name := "train" },
    mpijob := exResource launcherStatus, chiefjob := chiefjob, pods := [chiefPod],
    chiefPod := chiefPod, requestedGPU := 0, allocatedGPU := 0, trainerType := "mpijob" }

/-- The job of `exJob` with a failed launcher whose launcher batch job completed
one hour after the creation of the custom resource. -/
def exCompletedJob : MPIJob :=
  exJob "Failed"
    { Name := "train-launcher", Namespace := "default", UID := "j-1",
      Status := { CompletionTime := some { nanos := 63000003600000000000 } } }
    exLauncherPod

/-- A job view over a custom resource created one second after the zero time,
with an active launcher, whose launcher batch job completed at the instant
63000003600·10^9 ns. -/
def exAncientJob : MPIJob :=
  { BasicJobInfo := { resources := [], name := "train" },
    mpijob :=
      { Name := "train", Namespace := "default", UID := "m-1",
        Labels := [("release", "train")],
        CreationTimestamp := { nanos := 1000000000 }, PriorityClassName := "",
        Status := { LauncherStatus := "Active" } },
    chiefjob :=
      { Name := "train-launcher", Namespace := "default", UID := "j-1",
        Status := { CompletionTime := some { nanos := 63000003600000000000 } } },
    pods := [exLauncherPod], chiefPod := exLauncherPod,
    requestedGPU := 0, allocatedGPU := 0, trainerType := "mpijob" }

/-- A latest-condition helper that reports a transition two hours after the
creation instant of `exResource`, for every pod. -/
def exLatestCondition (_pod : v1.Pod) : v1.PodCondition :=
  { LastTransitionTime := { nanos := 63000007200000000000 } }

/-- A dashboard lookup on a cluster without dashboard service: every lookup fails. -/
def exNoDashboard (ns name : String) : String × Option String :=
  ("", some ("services \"" ++ name ++ "\" not found in " ++ ns))

/-- A dashboard lookup on a cluster whose dashboard service lives in namespace
`home` only. -/
def exDashboardIn (home ns name : String) : String × Option String :=
  if ns == home then ("http://" ++ ns ++ ".example:8443", none)
  else ("", some ("services \"" ++ name ++ "\" not found in " ++ ns))

/-- A dashboard lookup that reports success with an empty URL. -/
def exBlankDashboard (_ns _name : String) : String × Option String :=
  ("", none)

/-- A trainer on a cluster that holds the MPI job `train` only and no launcher
job, pod or statefulset: the API server answers every other name with its
not-found error, and the empty name with a validation error. -/
def exTrainer : MPIJobTrainer :=
  { client :=
      { listJobPods := fun _ _ => ([], none),
        listJobBatchJobs := fun _ _ => ([], none),
        listStatefulSets := fun _ _ => ([], none) },
    mpijobClient :=
      { Get := fun _ns name =>
          if name == "train" then .ok (exResource "Active")
          else if name == "" then .error "resource name may not be empty"
          else .error ("mpijobs.kubeflow.org \"" ++ name ++ "\" not found") },
    trainerType := "mpijob",
    enabled := true }

/-- Package state for `exTrainer`: the given daemon-mode flag, a cache that holds
no MPI job and is not started for the namespace "offline", and simple helpers. -/
def exPackage (daemon : Bool) : Package :=
  { IsDaemonMode := daemon,
    cacheGet := fun ns name =>
      if ns == "offline" then .error "the cache is not started, can not read objects"
      else .error ("MPIJob.kubeflow.org \"" ++ name ++ "\" not found"),
    getPodsOfTrainingJob := fun name ns podList isJobPod isChief =>
      (podList.filter (isJobPod name ns), (podList.find? isChief).getD exEmptyPod),
    podResources := fun pods =>
      pods.map (fun pod => { Name := pod.Name, Uid := "",
                             ResourceType := ResourceType.ResourceTypePod }),
    IsMPIPod := fun _ _ _ => true }

/-- A worker pod of the job `train`. -/
def exWorkerPod (name : String) : v1.Pod :=
  { Name := name, Namespace := "default",
    Labels := [("release", "train"), ("mpi_role_type", "worker")],
    Spec := { Containers := [{ Name := "mpi" }] },
    Status := { Phase := "Running", HostIP := "10.0.0.8" } }

/-- A job view over `exResource` with two worker pods and no cached GPU count. -/
def exTwoWorkerJob : MPIJob :=
  { BasicJobInfo := { resources := [], name := "train" },
    mpijob := exResource "Active", chiefjob := exChiefJob,
    pods := [exWorkerPod "train-worker-0", exWorkerPod "train-worker-1"],
    chiefPod := exLauncherPod, requestedGPU := 0, allocatedGPU := 0, trainerType := "mpijob" }

/-- An annotation helper for pods that carry no GPU request annotation. -/
def exUnannotated (_pods : List v1.Pod) : Int := 0

/-- A per-pod GPU count of `2^62` for every pod. -/
def exHugeGPUInPod (_pod : v1.Pod) : Int := 4611686018427387904

/-- A per-pod GPU count of 4 for every pod. -/
def exFourGPUInPod (_pod : v1.Pod) : Int := 4

/-! ## Basic facts -/

theorem utf8ByteSize_go_cons_pos (c : Char) (cs : List Char) :
    0 < String.utf8ByteSize.go (c :: cs) := by
  simp only [String.utf8ByteSize.go]
  have := Char.utf8Size_pos c
  omega

theorem len_eq_zero_iff (s : String) : len s = 0 ↔ s = "" := by
  constructor
  · intro h
    cases s with
    | mk data =>
      cases data with
      | nil => rfl
      | cons c cs =>
        have := utf8ByteSize_go_cons_pos c cs
        simp only [len, String.utf8ByteSize] at h
        omega
  · intro h
    subst h
    rfl

theorem isSucceeded_iff (mj : MPIJob) :
    mj.isSucceeded = true ↔ mj.mpijob.Status.LauncherStatus = v1alpha1.LauncherSucceeded := by
  simp [MPIJob.isSucceeded]

theorem isFailed_iff (mj : MPIJob) :
    mj.isFailed = true ↔ mj.mpijob.Status.LauncherStatus = v1alpha1.LauncherFailed := by
  simp [MPIJob.isFailed]

theorem isPending_iff (mj : MPIJob) :
    mj.isPending = true ↔
      (mj.chiefjob.Name = "" ∨ mj.chiefPod.Name = "" ∨
        mj.chiefPod.Status.Phase = v1.PodPending) := by
  unfold MPIJob.isPending
  by_cases h1 : mj.chiefjob.Name = ""
  · simp [h1, (len_eq_zero_iff "").2 rfl]
  · have h1l : len mj.chiefjob.Name ≠ 0 := fun h => h1 ((len_eq_zero_iff _).1 h)
    by_cases h2 : mj.chiefPod.Name = ""
    · simp [h2, (len_eq_zero_iff "").2 rfl]
    · have h2l : len mj.chiefPod.Name ≠ 0 := fun h => h2 ((len_eq_zero_iff _).1 h)
      simp [h1, h2, h1l, h2l]

/-- The status of a job whose custom resource has a name, as one case split. -/
theorem GetStatus_of_named (mj : MPIJob) (hname : mj.mpijob.Name ≠ "") :
    mj.GetStatus =
      if mj.isSucceeded then "SUCCEEDED"
      else if mj.isFailed then "FAILED"
      else if mj.isPending then "PENDING"
      else "RUNNING" := by
  simp [MPIJob.GetStatus, hname]

/-- The status is "RUNNING" exactly when every earlier case of `GetStatus` is ruled out. -/
theorem GetStatus_running_iff (mj : MPIJob) :
    mj.GetStatus = "RUNNING" ↔
      (mj.mpijob.Name ≠ "" ∧
        mj.mpijob.Status.LauncherStatus ≠ v1alpha1.LauncherSucceeded ∧
        mj.mpijob.Status.LauncherStatus ≠ v1alpha1.LauncherFailed ∧
        mj.chiefjob.Name ≠ "" ∧ mj.chiefPod.Name ≠ "" ∧
        mj.chiefPod.Status.Phase ≠ v1.PodPending) := by
  by_cases hname : mj.mpijob.Name = ""
  · simp [MPIJob.GetStatus, hname]
  · rw [GetStatus_of_named mj hname]
    by_cases hs : mj.isSucceeded = true
    · have := (isSucceeded_iff mj).1 hs
      simp [hs, this]
    · have hs1 : ¬ mj.mpijob.Status.LauncherStatus = v1alpha1.LauncherSucceeded :=
        fun h => hs ((isSucceeded_iff mj).2 h)
      by_cases hf : mj.isFailed = true
      · have := (isFailed_iff mj).1 hf
        simp [hs, hf, this]
      · have hf1 : ¬ mj.mpijob.Status.LauncherStatus = v1alpha1.LauncherFailed :=
          fun h => hf ((isFailed_iff mj).2 h)
        by_cases hp : mj.isPending = true
        · have hp1 := (isPending_iff mj).1 hp
          simp only [hs, hf, hp, if_true, if_false, Bool.false_eq_true]
          constructor
          · intro h
            exact absurd h (by decide)
          · rintro ⟨-, -, -, h1, h2, h3⟩
            rcases hp1 with h | h | h
            · exact absurd h h1
            · exact absurd h h2
            · exact absurd h h3
        · have hp1 : ¬ (mj.chiefjob.Name = "" ∨ mj.chiefPod.Name = "" ∨
              mj.chiefPod.Status.Phase = v1.PodPending) :=
            fun h => hp ((isPending_iff mj).2 h)
          simp only [hs, hf, hp, if_false, Bool.false_eq_true, true_iff]
          refine ⟨hname, hs1, hf1, ?_, ?_, ?_⟩
          · exact fun h => hp1 (Or.inl h)
          · exact fun h => hp1 (Or.inr (Or.inl h))
          · exact fun h => hp1 (Or.inr (Or.inr h))

theorem hasPrefixChars_iff (s substr : List Char) :
    hasPrefixChars s substr = true ↔ ∃ post, s = substr ++ post := by
  induction substr generalizing s with
  | nil =>
    cases s <;> simp [hasPrefixChars]
  | cons d ds ih =>
    cases s with
    | nil => simp [hasPrefixChars]
    | cons c cs =>
      simp only [hasPrefixChars, Bool.and_eq_true, beq_iff_eq, ih, List.cons_append,
        List.cons.injEq]
      constructor
      · rintro ⟨rfl, post, rfl⟩
        exact ⟨post, rfl, rfl⟩
      · rintro ⟨post, rfl, rfl⟩
        exact ⟨rfl, post, rfl⟩

theorem containsChars_iff (s substr : List Char) :
    containsChars s substr = true ↔ ∃ pre post, s = pre ++ substr ++ post := by
  induction s with
  | nil =>
    simp only [containsChars, List.isEmpty_iff]
    constructor
    · rintro rfl
      exact ⟨[], [], rfl⟩
    · rintro ⟨pre, post, h⟩
      have h2 := congrArg List.length h
      simp only [List.length_nil, List.length_append] at h2
      exact List.length_eq_zero.1 (by omega)
  | cons c cs ih =>
    simp only [containsChars, Bool.or_eq_true, hasPrefixChars_iff, ih]
    constructor
    · rintro (⟨post, h⟩ | ⟨pre, post, h⟩)
      · exact ⟨[], post, by simpa using h⟩
      · exact ⟨c :: pre, post, by simp [h]⟩
    · rintro ⟨pre, post, h⟩
      cases pre with
      | nil => exact Or.inl ⟨post, by simpa using h⟩
      | cons p ps =>
        simp only [List.cons_append, List.cons.injEq] at h
        exact Or.inr ⟨ps, post, h.2⟩

/-- `strings.Contains s substr` holds exactly when `substr` occurs inside `s`. -/
theorem strings_Contains_iff (s substr : String) :
    strings.Contains s substr = true ↔ ∃ pre post : String, s = pre ++ substr ++ post := by
  unfold strings.Contains
  rw [containsChars_iff]
  constructor
  · rintro ⟨pre, post, h⟩
    refine ⟨⟨pre⟩, ⟨post⟩, ?_⟩
    apply String.ext
    simpa [String.data_append] using h
  · rintro ⟨pre, post, h⟩
    refine ⟨pre.data, post.data, ?_⟩
    rw [h]
    simp [String.data_append]

/-! ## Status derivation -/

/-- C1: for a job whose custom resource has a non-empty name, `GetStatus` is
"SUCCEEDED" when the launcher succeeded, otherwise "FAILED" when the launcher
failed, otherwise "PENDING" when the chief job name is empty or the chief pod
name is empty or the chief pod phase is Pending, and otherwise "RUNNING". -/
theorem GetStatus_precedence (mj : MPIJob) (hname : mj.mpijob.Name ≠ "") :
    (mj.mpijob.Status.LauncherStatus = v1alpha1.LauncherSucceeded →
        mj.GetStatus = "SUCCEEDED") ∧
    (mj.mpijob.Status.LauncherStatus ≠ v1alpha1.LauncherSucceeded →
      mj.mpijob.Status.LauncherStatus = v1alpha1.LauncherFailed →
        mj.GetStatus = "FAILED") ∧
    (mj.mpijob.Status.LauncherStatus ≠ v1alpha1.LauncherSucceeded →
      mj.mpijob.Status.LauncherStatus ≠ v1alpha1.LauncherFailed →
      (mj.chiefjob.Name = "" ∨ mj.chiefPod.Name = "" ∨
        mj.chiefPod.Status.Phase = v1.PodPending) →
        mj.GetStatus = "PENDING") ∧
    (mj.mpijob.Status.LauncherStatus ≠ v1alpha1.LauncherSucceeded →
      mj.mpijob.Status.LauncherStatus ≠ v1alpha1.LauncherFailed →
      ¬ (mj.chiefjob.Name = "" ∨ mj.chiefPod.Name = "" ∨
        mj.chiefPod.Status.Phase = v1.PodPending) →
        mj.GetStatus = "RUNNING") := by
  rw [GetStatus_of_named mj hname]
  refine ⟨?_, ?_, ?_, ?_⟩
  · intro hs
    rw [if_pos ((isSucceeded_iff mj).2 hs)]
  · intro hs hf
    rw [if_neg (fun h => hs ((isSucceeded_iff mj).1 h)), if_pos ((isFailed_iff mj).2 hf)]
  · intro hs hf hp
    rw [if_neg (fun h => hs ((isSucceeded_iff mj).1 h)),
      if_neg (fun h => hf ((isFailed_iff mj).1 h)), if_pos ((isPending_iff mj).2 hp)]
  · intro hs hf hp
    rw [if_neg (fun h => hs ((isSucceeded_iff mj).1 h)),
      if_neg (fun h => hf ((isFailed_iff mj).1 h)),
      if_neg (fun h => hp ((isPending_iff mj).1 h))]

/-- C1 at concrete jobs: a succeeded launcher wins over a missing chief job and
chief pod, and an active launcher with chief job and running chief pod is RUNNING. -/
theorem GetStatus_precedence_witness :
    (exJob "Succeeded" exEmptyJob exEmptyPod).mpijob.Name ≠ "" ∧
    (exJob "Succeeded" exEmptyJob exEmptyPod).GetStatus = "SUCCEEDED" ∧
    (exJob "Active" exChiefJob exLauncherPod).GetStatus = "RUNNING" :=
  ⟨by decide,
   (GetStatus_precedence (exJob "Succeeded" exEmptyJob exEmptyPod) (by decide)).1 (by decide),
   (GetStatus_precedence (exJob "Active" exChiefJob exLauncherPod) (by decide)).2.2.2
     (by decide) (by decide) (by decide)⟩

/-- C2, as stated, fails: the view of a custom resource without a name has
status "UNKNOWN", which is none of the four strings. -/
theorem GetStatus_unnamed_is_unknown :
    exUnnamedJob.GetStatus = "UNKNOWN" ∧
    exUnnamedJob.GetStatus ∉ ["RUNNING", "PENDING", "SUCCEEDED", "FAILED"] := by
  decide

/-- C2, amended: `GetStatus` returns "UNKNOWN" exactly when the custom resource
has an empty name, and otherwise one of "RUNNING", "PENDING", "SUCCEEDED",
"FAILED". -/
theorem GetStatus_closed (mj : MPIJob) :
    (mj.mpijob.Name = "" ∧ mj.GetStatus = "UNKNOWN") ∨
    (mj.mpijob.Name ≠ "" ∧
      mj.GetStatus ∈ ["RUNNING", "PENDING", "SUCCEEDED", "FAILED"]) := by
  by_cases hname : mj.mpijob.Name = ""
  · left
    exact ⟨hname, by simp [MPIJob.GetStatus, hname]⟩
  · right
    refine ⟨hname, ?_⟩
    rw [GetStatus_of_named mj hname]
    split_ifs <;> simp

/-- C3: for a job whose custom resource has a name and whose launcher neither
succeeded nor failed, an empty chief pod (empty pod name) gives "PENDING",
whatever the chief batch job is. -/
theorem GetStatus_pending_of_empty_chiefPod (mj : MPIJob) (hname : mj.mpijob.Name ≠ "")
    (hs : mj.mpijob.Status.LauncherStatus ≠ v1alpha1.LauncherSucceeded)
    (hf : mj.mpijob.Status.LauncherStatus ≠ v1alpha1.LauncherFailed)
    (hpod : mj.chiefPod.Name = "") :
    mj.GetStatus = "PENDING" := by
  rw [GetStatus_of_named mj hname, if_neg (fun h => hs ((isSucceeded_iff mj).1 h)),
    if_neg (fun h => hf ((isFailed_iff mj).1 h)),
    if_pos ((isPending_iff mj).2 (Or.inr (Or.inl hpod)))]

/-- C3 at a concrete job: active launcher, launcher job present, chief pod not found. -/
theorem GetStatus_pending_of_empty_chiefPod_witness :
    (exJob "Active" exChiefJob exEmptyPod).chiefPod.Name = "" ∧
    (exJob "Active" exChiefJob exEmptyPod).GetStatus = "PENDING" :=
  ⟨by decide,
   GetStatus_pending_of_empty_chiefPod (exJob "Active" exChiefJob exEmptyPod)
     (by decide) (by decide) (by decide) (by decide)⟩

/-! ## Host IP of the chief pod -/

/-- C8: `HostIPOfChief` is the chief pod's host IP when `GetStatus` is "RUNNING"
and "N/A" otherwise; in particular it is "N/A" when the custom resource has no
name, when the launcher succeeded or failed, when the chief job is missing, and
when the chief pod is empty or in phase Pending. -/
theorem HostIPOfChief_spec (mj : MPIJob) :
    (mj.GetStatus = "RUNNING" → mj.HostIPOfChief = mj.chiefPod.Status.HostIP) ∧
    (mj.GetStatus ≠ "RUNNING" → mj.HostIPOfChief = "N/A") ∧
    (mj.mpijob.Name = "" → mj.HostIPOfChief = "N/A") ∧
    (mj.mpijob.Status.LauncherStatus = v1alpha1.LauncherSucceeded →
      mj.HostIPOfChief = "N/A") ∧
    (mj.mpijob.Status.LauncherStatus = v1alpha1.LauncherFailed →
      mj.HostIPOfChief = "N/A") ∧
    (mj.chiefjob.Name = "" → mj.HostIPOfChief = "N/A") ∧
    (mj.chiefPod.Name = "" → mj.HostIPOfChief = "N/A") ∧
    (mj.chiefPod.Status.Phase = v1.PodPending → mj.HostIPOfChief = "N/A") := by
  have hrun : mj.GetStatus = "RUNNING" → mj.HostIPOfChief = mj.chiefPod.Status.HostIP := by
    intro h
    simp [MPIJob.HostIPOfChief, h]
  have hna : mj.GetStatus ≠ "RUNNING" → mj.HostIPOfChief = "N/A" := by
    intro h
    simp [MPIJob.HostIPOfChief, h]
  have hiff := GetStatus_running_iff mj
  refine ⟨hrun, hna, ?_, ?_, ?_, ?_, ?_, ?_⟩
  · intro h
    exact hna (fun hr => (hiff.1 hr).1 h)
  · intro h
    exact hna (fun hr => (hiff.1 hr).2.1 h)
  · intro h
    exact hna (fun hr => (hiff.1 hr).2.2.1 h)
  · intro h
    exact hna (fun hr => (hiff.1 hr).2.2.2.1 h)
  · intro h
    exact hna (fun hr => (hiff.1 hr).2.2.2.2.1 h)
  · intro h
    exact hna (fun hr => (hiff.1 hr).2.2.2.2.2 h)

/-- C8 at concrete jobs: the running job exposes 10.0.0.7, the job whose chief
pod was not found exposes "N/A". -/
theorem HostIPOfChief_spec_witness :
    (exJob "Active" exChiefJob exLauncherPod).HostIPOfChief = "10.0.0.7" ∧
    (exJob "Active" exChiefJob exEmptyPod).HostIPOfChief = "N/A" :=
  ⟨((HostIPOfChief_spec (exJob "Active" exChiefJob exLauncherPod)).1 (by decide)).trans
      (by decide),
   (HostIPOfChief_spec (exJob "Active" exChiefJob exEmptyPod)).2.2.2.2.2.2.1 (by decide)⟩

/-! ## Chief pod selection -/

/-- C7: `isChiefPod` holds exactly for the pods whose label map has the key
"mpi_role_type" with value "launcher"; a pod without labels, without that key or
with another value (the empty string included) is not a chief pod, and two pods
with the same labels get the same answer from any two trainers, whatever their
names, namespaces and phases. -/
theorem isChiefPod_iff_label (tt : MPIJobTrainer) (item : v1.Pod) :
    (tt.isChiefPod item = true ↔ item.Labels.lookup "mpi_role_type" = some "launcher") ∧
    (item.Labels = [] → tt.isChiefPod item = false) ∧
    (item.Labels.lookup "mpi_role_type" = none → tt.isChiefPod item = false) ∧
    (∀ v, item.Labels.lookup "mpi_role_type" = some v → v ≠ "launcher" →
      tt.isChiefPod item = false) ∧
    (item.Labels.lookup "mpi_role_type" = some "" → tt.isChiefPod item = false) ∧
    (∀ (tt2 : MPIJobTrainer) (other : v1.Pod), other.Labels = item.Labels →
      tt2.isChiefPod other = tt.isChiefPod item) := by
  have key : ∀ (t : MPIJobTrainer) (p : v1.Pod),
      t.isChiefPod p = true ↔ p.Labels.lookup "mpi_role_type" = some "launcher" := by
    intro t p
    unfold MPIJobTrainer.isChiefPod mapIndex
    cases h : p.Labels.lookup "mpi_role_type" with
    | none => simp
    | some v => simp
  have neg : ∀ (t : MPIJobTrainer) (p : v1.Pod),
      p.Labels.lookup "mpi_role_type" ≠ some "launcher" → t.isChiefPod p = false := by
    intro t p h
    cases hb : t.isChiefPod p with
    | false => rfl
    | true => exact absurd ((key t p).1 hb) h
  refine ⟨key tt item, ?_, ?_, ?_, ?_, ?_⟩
  · intro h
    apply neg
    rw [h]
    simp
  · intro h
    apply neg
    rw [h]
    simp
  · intro v h hv
    apply neg
    rw [h]
    simpa using hv
  · intro h
    apply neg
    rw [h]
    decide
  · intro tt2 other h
    cases hb : tt.isChiefPod item with
    | true =>
      apply (key tt2 other).2
      rw [h]
      exact (key tt item).1 hb
    | false =>
      apply neg
      rw [h]
      intro hl
      rw [(key tt item).2 hl] at hb
      exact absurd hb (by decide)

/-- C7 at concrete pods: the launcher pod is a chief pod, a worker pod and the
empty pod are not. -/
theorem isChiefPod_iff_label_witness :
    exTrainer.isChiefPod exLauncherPod = true ∧
    exTrainer.isChiefPod (exWorkerPod "train-worker-0") = false ∧
    exTrainer.isChiefPod exEmptyPod = false :=
  ⟨(isChiefPod_iff_label exTrainer exLauncherPod).1.2 (by decide),
   (isChiefPod_iff_label exTrainer (exWorkerPod "train-worker-0")).2.2.2.1 "worker"
     (by decide) (by decide),
   (isChiefPod_iff_label exTrainer exEmptyPod).2.1 rfl⟩

/-! ## Duration -/

/-- Within the `int64` range `Time.Sub` is the plain difference of the instants. -/
theorem Time.Sub_eq_of_fits (t u : Time) (hlo : minDuration ≤ t.nanos - u.nanos)
    (hhi : t.nanos - u.nanos ≤ maxDuration) : t.Sub u = t.nanos - u.nanos := by
  unfold Time.Sub
  simp only
  rw [if_neg (by omega), if_neg (by omega)]

/-- For a job with a non-zero creation timestamp whose chief batch job has a name
and a completion time, `Duration` is Go's `Time.Sub` of the completion time and
the creation time, whatever the clock reading, the launcher status and the chief
pod are. -/
theorem Duration_eq_Sub_of_completed (getPodLatestCondition : v1.Pod → v1.PodCondition)
    (now : Time) (mj : MPIJob) (completionTime : Time)
    (hz : mj.mpijob.CreationTimestamp.IsZero = false) (hn : mj.chiefjob.Name ≠ "")
    (hc : mj.chiefjob.Status.CompletionTime = some completionTime) :
    mj.Duration getPodLatestCondition now =
      completionTime.Sub mj.mpijob.CreationTimestamp := by
  have hlen : (len mj.chiefjob.Name != 0) = true := by
    have : len mj.chiefjob.Name ≠ 0 := fun h => hn ((len_eq_zero_iff _).1 h)
    simpa using this
  unfold MPIJob.Duration
  simp only [hz, hlen, hc]
  rfl

/-- C9, as stated, fails: for a custom resource created one second after the zero
time whose launcher job has a name and completed at instant 63000003600·10^9 ns,
`Duration` returns the largest `Duration`, `2^63 - 1` ns, and not the
completion time minus the creation time, 63000003599·10^9 ns. -/
theorem Duration_saturates_on_long_span :
    exAncientJob.mpijob.CreationTimestamp.IsZero = false ∧
    exAncientJob.chiefjob.Name ≠ "" ∧
    exAncientJob.chiefjob.Status.CompletionTime = some { nanos := 63000003600000000000 } ∧
    exAncientJob.Duration exLatestCondition { nanos := 64000000000000000000 } =
      9223372036854775807 ∧
    exAncientJob.Duration exLatestCondition { nanos := 64000000000000000000 } ≠
      63000003600000000000 - exAncientJob.mpijob.CreationTimestamp.nanos := by
  decide

/-- C9, amended: for a job with a non-zero creation timestamp whose chief batch
job has a name and a completion time, and whose completion time minus creation
time fits a `Duration` (lies between `-2^63` and `2^63 - 1` nanoseconds),
`Duration` is exactly the completion time minus the creation time, whatever the
current time, the launcher status, the chief pod and its latest condition are.
For a job whose creation timestamp is zero, `Duration` is 0. -/
theorem Duration_completed_or_unset (getPodLatestCondition : v1.Pod → v1.PodCondition)
    (now : Time) (mj : MPIJob) :
    (∀ completionTime : Time, mj.mpijob.CreationTimestamp.IsZero = false →
      mj.chiefjob.Name ≠ "" → mj.chiefjob.Status.CompletionTime = some completionTime →
      minDuration ≤ completionTime.nanos - mj.mpijob.CreationTimestamp.nanos →
      completionTime.nanos - mj.mpijob.CreationTimestamp.nanos ≤ maxDuration →
        mj.Duration getPodLatestCondition now =
          completionTime.nanos - mj.mpijob.CreationTimestamp.nanos) ∧
    (mj.mpijob.CreationTimestamp.IsZero = true → mj.Duration getPodLatestCondition now = 0) := by
  constructor
  · intro completionTime hz hn hc hlo hhi
    rw [Duration_eq_Sub_of_completed getPodLatestCondition now mj completionTime hz hn hc,
      Time.Sub_eq_of_fits _ _ hlo hhi]
  · intro hz
    unfold MPIJob.Duration
    simp [hz]

/-- C9 at a concrete job: created at instant 63·10^18 ns, launcher job completed
one hour later, failed launcher, clock reading far in the future. -/
theorem Duration_completed_or_unset_witness :
    exCompletedJob.mpijob.CreationTimestamp.IsZero = false ∧
    exCompletedJob.chiefjob.Name ≠ "" ∧
    exCompletedJob.Duration exLatestCondition { nanos := 64000000000000000000 } =
      3600000000000 ∧
    exUnnamedJob.Duration exLatestCondition { nanos := 64000000000000000000 } = 0 :=
  ⟨by decide, by decide,
   ((Duration_completed_or_unset exLatestCondition { nanos := 64000000000000000000 }
      exCompletedJob).1 { nanos := 63000003600000000000 } (by decide) (by decide) rfl
      (by decide) (by decide)).trans (by decide),
   (Duration_completed_or_unset exLatestCondition { nanos := 64000000000000000000 }
      exUnnamedJob).2 (by decide)⟩

/-! ## Dashboard URL resolution -/

/-- C5: when the dashboard lookup fails with an empty URL in the given namespace,
in the arena namespace and in "kube-system", `GetJobDashboards` returns no URL
and the error "No LOGVIEWER Installed.", after exactly these three lookups. -/
theorem GetJobDashboards_all_fail (dashboard : String → String → String × Option String)
    (mj : MPIJob) (ns arenaNamespace : String)
    (h1 : (dashboard ns "kubernetes-dashboard").1 = "" ∧
      (dashboard ns "kubernetes-dashboard").2 ≠ none)
    (h2 : (dashboard arenaNamespace "kubernetes-dashboard").1 = "" ∧
      (dashboard arenaNamespace "kubernetes-dashboard").2 ≠ none)
    (h3 : (dashboard "kube-system" "kubernetes-dashboard").1 = "" ∧
      (dashboard "kube-system" "kubernetes-dashboard").2 ≠ none) :
    mj.GetJobDashboards dashboard ns arenaNamespace =
      (([], some "No LOGVIEWER Installed."),
        [Call.dashboard ns "kubernetes-dashboard",
         Call.dashboard arenaNamespace "kubernetes-dashboard",
         Call.dashboard "kube-system" "kubernetes-dashboard"]) := by
  have e1 : (dashboard ns "kubernetes-dashboard").2.isSome = true :=
    Option.isSome_iff_ne_none.2 h1.2
  have e2 : (dashboard arenaNamespace "kubernetes-dashboard").2.isSome = true :=
    Option.isSome_iff_ne_none.2 h2.2
  unfold MPIJob.GetJobDashboards
  simp [e1, e2, h3.1]

/-- C5 at a concrete cluster without any dashboard service. -/
theorem GetJobDashboards_all_fail_witness :
    (exJob "Active" exChiefJob exLauncherPod).GetJobDashboards exNoDashboard "default"
        "arena-system" =
      (([], some "No LOGVIEWER Installed."),
        [Call.dashboard "default" "kubernetes-dashboard",
         Call.dashboard "arena-system" "kubernetes-dashboard",
         Call.dashboard "kube-system" "kubernetes-dashboard"]) :=
  GetJobDashboards_all_fail exNoDashboard (exJob "Active" exChiefJob exLauncherPod)
    "default" "arena-system" (by decide) (by decide) (by decide)

/-- C4, as stated, fails: with a lookup that succeeds in the first namespace,
a job whose chief pod has no container gets the error "mpi launcher is not
ready!" and no URL; and a lookup that succeeds with an empty URL gives the error
"No LOGVIEWER Installed." and no URL. -/
theorem GetJobDashboards_success_without_url :
    (exDashboardIn "default" "default" "kubernetes-dashboard").2 = none ∧
    (exJob "Active" exChiefJob exEmptyPod).GetJobDashboards (exDashboardIn "default")
        "default" "arena-system" =
      (([], some "mpi launcher is not ready!"),
        [Call.dashboard "default" "kubernetes-dashboard"]) ∧
    (exBlankDashboard "default" "kubernetes-dashboard").2 = none ∧
    (exJob "Active" exChiefJob exLauncherPod).GetJobDashboards exBlankDashboard
        "default" "arena-system" =
      (([], some "No LOGVIEWER Installed."),
        [Call.dashboard "default" "kubernetes-dashboard"]) := by
  decide

/-- C4, amended: for a job whose chief pod has at least one container, if the
lookup succeeds in at least one of the namespaces tried in sequence (the
given one, the arena one, then "kube-system") and the first one that succeeds
yields a non-empty dashboard URL, `GetJobDashboards` returns no error and exactly
one URL, built from that dashboard URL, the chief pod and its first container,
and the lookups issued are those up to and including that namespace. -/
theorem GetJobDashboards_first_success (dashboard : String → String → String × Option String)
    (mj : MPIJob) (ns arenaNamespace : String) (container : v1.Container)
    (rest : List v1.Container) (hc : mj.chiefPod.Spec.Containers = container :: rest) :
    ((dashboard ns "kubernetes-dashboard").2 = none →
      (dashboard ns "kubernetes-dashboard").1 ≠ "" →
      mj.GetJobDashboards dashboard ns arenaNamespace =
        (([MPIJob.dashboardLogURL (dashboard ns "kubernetes-dashboard").1 mj.chiefPod container],
          none),
         [Call.dashboard ns "kubernetes-dashboard"])) ∧
    ((dashboard ns "kubernetes-dashboard").2 ≠ none →
      (dashboard arenaNamespace "kubernetes-dashboard").2 = none →
      (dashboard arenaNamespace "kubernetes-dashboard").1 ≠ "" →
      mj.GetJobDashboards dashboard ns arenaNamespace =
        (([MPIJob.dashboardLogURL (dashboard arenaNamespace "kubernetes-dashboard").1 mj.chiefPod
            container], none),
         [Call.dashboard ns "kubernetes-dashboard",
          Call.dashboard arenaNamespace "kubernetes-dashboard"])) ∧
    ((dashboard ns "kubernetes-dashboard").2 ≠ none →
      (dashboard arenaNamespace "kubernetes-dashboard").2 ≠ none →
      (dashboard "kube-system" "kubernetes-dashboard").2 = none →
      (dashboard "kube-system" "kubernetes-dashboard").1 ≠ "" →
      mj.GetJobDashboards dashboard ns arenaNamespace =
        (([MPIJob.dashboardLogURL (dashboard "kube-system" "kubernetes-dashboard").1 mj.chiefPod
            container], none),
         [Call.dashboard ns "kubernetes-dashboard",
          Call.dashboard arenaNamespace "kubernetes-dashboard",
          Call.dashboard "kube-system" "kubernetes-dashboard"])) := by
  refine ⟨?_, ?_, ?_⟩
  · intro h1 hu
    unfold MPIJob.GetJobDashboards
    simp [h1, hu, hc]
  · intro h1 h2 hu
    have e1 : (dashboard ns "kubernetes-dashboard").2.isSome = true :=
      Option.isSome_iff_ne_none.2 h1
    unfold MPIJob.GetJobDashboards
    simp [e1, h2, hu, hc]
  · intro h1 h2 h3 hu
    have e1 : (dashboard ns "kubernetes-dashboard").2.isSome = true :=
      Option.isSome_iff_ne_none.2 h1
    have e2 : (dashboard arenaNamespace "kubernetes-dashboard").2.isSome = true :=
      Option.isSome_iff_ne_none.2 h2
    unfold MPIJob.GetJobDashboards
    simp [e1, e2, h3, hu, hc]

/-- C4 at a concrete cluster whose dashboard service lives in "kube-system" only. -/
theorem GetJobDashboards_first_success_witness :
    (exJob "Active" exChiefJob exLauncherPod).GetJobDashboards (exDashboardIn "kube-system")
        "default" "arena-system" =
      ((["http://kube-system.example:8443/#!/log/default/train-launcher-x2k/mpi?namespace=default\n"],
        none),
       [Call.dashboard "default" "kubernetes-dashboard",
        Call.dashboard "arena-system" "kubernetes-dashboard",
        Call.dashboard "kube-system" "kubernetes-dashboard"]) :=
  ((GetJobDashboards_first_success (exDashboardIn "kube-system")
      (exJob "Active" exChiefJob exLauncherPod) "default" "arena-system"
      { Name := "mpi" } [] rfl).2.2 (by decide) (by decide) (by decide) (by decide)).trans
    (by decide)

/-! ## Not-found translation -/

/-- C6: when the underlying get of the MPI job fails with error `e`,
`GetTrainingJob` returns (nil, `ErrTrainingJobNotFound`) exactly when the
message of `e` contains `MPIJob.kubeflow.org "<name>" not found` in daemon mode,
respectively `mpijobs.kubeflow.org "<name>" not found` against the API server;
for every other error it returns nil and a non-sentinel error with message
"failed to find mpijob <name> from cache,reason: <e>", respectively
"failed to find job <name> from api server,reason: <e>"; and in both cases the
get is the only request issued (no pod, job or statefulset is listed). -/
theorem GetTrainingJob_get_error (pkg : Package) (tt : MPIJobTrainer) (name ns e : String) :
    (pkg.IsDaemonMode = true → pkg.cacheGet ns name = .error e →
      ((tt.GetTrainingJob pkg name ns).1 = (none, some GoError.ErrTrainingJobNotFound) ↔
        ∃ pre post : String,
          e = pre ++ ("MPIJob.kubeflow.org \"" ++ name ++ "\" not found") ++ post) ∧
      ((¬ ∃ pre post : String,
          e = pre ++ ("MPIJob.kubeflow.org \"" ++ name ++ "\" not found") ++ post) →
        (tt.GetTrainingJob pkg name ns).1 =
          (none, some (GoError.errorString
            ("failed to find mpijob " ++ name ++ " from cache,reason: " ++ e)))) ∧
      (tt.GetTrainingJob pkg name ns).2 = [Call.cacheGet ns name]) ∧
    (pkg.IsDaemonMode = false → tt.mpijobClient.Get ns name = .error e →
      ((tt.GetTrainingJob pkg name ns).1 = (none, some GoError.ErrTrainingJobNotFound) ↔
        ∃ pre post : String,
          e = pre ++ ("mpijobs.kubeflow.org \"" ++ name ++ "\" not found") ++ post) ∧
      ((¬ ∃ pre post : String,
          e = pre ++ ("mpijobs.kubeflow.org \"" ++ name ++ "\" not found") ++ post) →
        (tt.GetTrainingJob pkg name ns).1 =
          (none, some (GoError.errorString
            ("failed to find job " ++ name ++ " from api server,reason: " ++ e)))) ∧
      (tt.GetTrainingJob pkg name ns).2 = [Call.mpijobsGet ns name]) := by
  constructor
  · intro hd hg
    rw [← strings_Contains_iff]
    unfold MPIJobTrainer.GetTrainingJob
    simp only [hd, if_true, hg]
    by_cases hc : strings.Contains e ("MPIJob.kubeflow.org \"" ++ name ++ "\" not found") = true
    · simp [hc]
    · simp [hc]
  · intro hd hg
    rw [← strings_Contains_iff]
    unfold MPIJobTrainer.GetTrainingJob
    simp only [hd, hg]
    by_cases hc : strings.Contains e ("mpijobs.kubeflow.org \"" ++ name ++ "\" not found") = true
    · simp [hc]
    · simp [hc]

/-- C6 at a concrete cluster: the job `absent` is unknown to the API server and
to the cache, the empty name is rejected by the API server, and the cache of the
namespace "offline" is not started. -/
theorem GetTrainingJob_get_error_witness :
    exTrainer.GetTrainingJob (exPackage false) "absent" "default" =
      ((none, some GoError.ErrTrainingJobNotFound), [Call.mpijobsGet "default" "absent"]) ∧
    exTrainer.GetTrainingJob (exPackage true) "absent" "default" =
      ((none, some GoError.ErrTrainingJobNotFound), [Call.cacheGet "default" "absent"]) ∧
    (exTrainer.GetTrainingJob (exPackage false) "" "default").1 =
      (none, some (GoError.errorString
        "failed to find job  from api server,reason: resource name may not be empty")) ∧
    (exTrainer.GetTrainingJob (exPackage true) "absent" "offline").1 =
      (none, some (GoError.errorString
        "failed to find mpijob absent from cache,reason: the cache is not started, can not read objects")) :=
  ⟨Prod.ext
      (((GetTrainingJob_get_error (exPackage false) exTrainer "absent" "default"
        "mpijobs.kubeflow.org \"absent\" not found").2 rfl rfl).1.2 ⟨"", "", by decide⟩)
      ((GetTrainingJob_get_error (exPackage false) exTrainer "absent" "default"
        "mpijobs.kubeflow.org \"absent\" not found").2 rfl rfl).2.2,
   Prod.ext
      (((GetTrainingJob_get_error (exPackage true) exTrainer "absent" "default"
        "MPIJob.kubeflow.org \"absent\" not found").1 rfl rfl).1.2 ⟨"", "", by decide⟩)
      ((GetTrainingJob_get_error (exPackage true) exTrainer "absent" "default"
        "MPIJob.kubeflow.org \"absent\" not found").1 rfl rfl).2.2,
   ((GetTrainingJob_get_error (exPackage false) exTrainer "" "default"
      "resource name may not be empty").2 rfl rfl).2.1
      (fun h => absurd ((strings_Contains_iff _ _).2 h) (by decide)),
   ((GetTrainingJob_get_error (exPackage true) exTrainer "absent" "offline"
      "the cache is not started, can not read objects").1 rfl rfl).2.1
      (fun h => absurd ((strings_Contains_iff _ _).2 h) (by decide))⟩

/-! ## Requested GPUs -/

theorem wrap64_of_fits (x : Int) (hlo : -(2 ^ 63) ≤ x) (hhi : x < 2 ^ 63) : wrap64 x = x := by
  unfold wrap64
  norm_num at hlo hhi ⊢
  omega

/-- The accumulation loop of `RequestedGPU` adds the plain sum of the per-pod
counts to the field when the counts are non-negative and the total fits `int64`;
it changes no other field. -/
theorem foldl_requestedGPU (gpuInPod : v1.Pod → Int) (pods : List v1.Pod) (m : MPIJob)
    (h0 : 0 ≤ m.requestedGPU) (hnn : ∀ pod ∈ pods, 0 ≤ gpuInPod pod)
    (hfit : m.requestedGPU + (pods.map gpuInPod).sum < 2 ^ 63) :
    pods.foldl
        (fun (m : MPIJob) pod =>
          { m with requestedGPU := wrap64 (m.requestedGPU + gpuInPod pod) }) m =
      { m with requestedGPU := m.requestedGPU + (pods.map gpuInPod).sum } := by
  induction pods generalizing m with
  | nil => simp
  | cons pod rest ih =>
    have hpod : 0 ≤ gpuInPod pod := hnn pod (List.mem_cons_self _ _)
    have hrest : ∀ q ∈ rest, 0 ≤ gpuInPod q := fun q hq => hnn q (List.mem_cons_of_mem _ hq)
    have hsum : 0 ≤ (rest.map gpuInPod).sum := by
      apply List.sum_nonneg
      intro x hx
      rcases List.mem_map.1 hx with ⟨q, hq, rfl⟩
      exact hrest q hq
    simp only [List.map_cons, List.sum_cons] at hfit
    have hw : wrap64 (m.requestedGPU + gpuInPod pod) = m.requestedGPU + gpuInPod pod := by
      apply wrap64_of_fits
      · have : (0 : Int) ≤ 2 ^ 63 := by norm_num
        omega
      · omega
    simp only [List.foldl_cons, List.map_cons, List.sum_cons, hw]
    rw [ih _ (by simp only; omega) hrest (by simp only; omega)]
    simp only [add_assoc]

/-- C10, as stated, fails: with two pods of `2^62` GPUs each (non-negative
counts) and no annotation, the first call returns `-2^63` and the second call on
the same job returns 0. -/
theorem RequestedGPU_overflow_not_idempotent :
    exTwoWorkerJob.requestedGPU = 0 ∧
    (exTwoWorkerJob.RequestedGPU exUnannotated exHugeGPUInPod).1 = -9223372036854775808 ∧
    ((exTwoWorkerJob.RequestedGPU exUnannotated exHugeGPUInPod).2.RequestedGPU
      exUnannotated exHugeGPUInPod).1 = 0 := by
  decide

/-- C10, amended: for a job whose `requestedGPU` field is 0, whose per-pod GPU
counts are non-negative and whose total of per-pod counts fits an `int64`
(is below `2^63`), the first call returns the annotation-derived count if that
is positive and otherwise the sum of the per-pod counts over all the pods of the
job, and a second call on the job left by the first returns the same value. -/
theorem RequestedGPU_idempotent ( getRequestGPUsOfJobFromPodAnnotation : List v1.Pod → Int)
    (gpuInPod : v1.Pod → Int) (mj : MPIJob) (h0 : mj.requestedGPU = 0)
    (hnn : ∀ pod ∈ mj.pods, 0 ≤ gpuInPod pod)
    (hfit : (mj.pods.map gpuInPod).sum < 2 ^ 63) :
    (0 < getRequestGPUsOfJobFromPodAnnotation mj.pods →
      (mj.RequestedGPU getRequestGPUsOfJobFromPodAnnotation gpuInPod).1 =
        getRequestGPUsOfJobFromPodAnnotation mj.pods) ∧
    (¬ 0 < getRequestGPUsOfJobFromPodAnnotation mj.pods →
      (mj.RequestedGPU getRequestGPUsOfJobFromPodAnnotation gpuInPod).1 =
        (mj.pods.map gpuInPod).sum) ∧
    ((mj.RequestedGPU getRequestGPUsOfJobFromPodAnnotation gpuInPod).2.RequestedGPU
        getRequestGPUsOfJobFromPodAnnotation gpuInPod).1 =
      (mj.RequestedGPU getRequestGPUsOfJobFromPodAnnotation gpuInPod).1 := by
  have hsum : 0 ≤ (mj.pods.map gpuInPod).sum := by
    apply List.sum_nonneg
    intro x hx
    rcases List.mem_map.1 hx with ⟨q, hq, rfl⟩
    exact hnn q hq
  have hfold := foldl_requestedGPU gpuInPod mj.pods mj (by omega) hnn (by omega)
  rw [h0, zero_add] at hfold
  by_cases ha : 0 < getRequestGPUsOfJobFromPodAnnotation mj.pods
  · have hfirst : mj.RequestedGPU getRequestGPUsOfJobFromPodAnnotation gpuInPod =
        ( getRequestGPUsOfJobFromPodAnnotation mj.pods, mj) := by
      unfold MPIJob.RequestedGPU
      simp [h0, ha]
    refine ⟨fun _ => by rw [hfirst], fun h => absurd ha h, ?_⟩
    rw [hfirst]
    simp only
    rw [hfirst]
  · have hfirst : mj.RequestedGPU getRequestGPUsOfJobFromPodAnnotation gpuInPod =
        ((mj.pods.map gpuInPod).sum,
          { mj with requestedGPU := (mj.pods.map gpuInPod).sum }) := by
      unfold MPIJob.RequestedGPU
      simp only [h0, gt_iff_lt, lt_self_iff_false, if_false, ha]
      rw [hfold]
    refine ⟨fun h => absurd h ha, fun _ => by rw [hfirst], ?_⟩
    rw [hfirst]
    simp only
    by_cases hpos : 0 < (mj.pods.map gpuInPod).sum
    · unfold MPIJob.RequestedGPU
      simp [hpos]
    · have hz : (mj.pods.map gpuInPod).sum = 0 := by omega
      have hsame : ({ mj with requestedGPU := (mj.pods.map gpuInPod).sum } : MPIJob) = mj := by
        rw [hz, ← h0]
      rw [hsame, hfirst]

/-- C10 at a concrete job: two pods of 4 GPUs each and no annotation give 8 on
the first and on the second call. -/
theorem RequestedGPU_idempotent_witness :
    (exTwoWorkerJob.RequestedGPU exUnannotated exFourGPUInPod).1 = 8 ∧
    ((exTwoWorkerJob.RequestedGPU exUnannotated exFourGPUInPod).2.RequestedGPU
      exUnannotated exFourGPUInPod).1 = 8 :=
  have h := RequestedGPU_idempotent exUnannotated exFourGPUInPod exTwoWorkerJob rfl
    (by decide) (by decide)
  ⟨(h.2.1 (by decide)).trans (by decide), h.2.2.trans ((h.2.1 (by decide)).trans (by decide))⟩
